import Mathlib

/-!
A shallow embedding of the Flask backend in `src/app.py`: the rule-based
crop-yield estimator behind `POST /predict` and the weather-insight deriver
behind `POST /insights`.  Python floats are modelled by exact rationals `ℚ`;
Python's `float` builtin, `int` truncation, `%` on a positive divisor,
`round` (banker's rounding), `str.lower` and `str.capitalize` are modelled
explicitly below.
-/

namespace CropApp

/-- Python `int(x)` applied to a float: truncation toward zero. -/
def pytrunc (x : ℚ) : ℤ :=
  if 0 ≤ x then ⌊x⌋ else ⌈x⌉

/-- Python `x % y` on floats for `y > 0`: the remainder takes the sign of
the divisor, i.e. `x - y * floor (x / y)`. -/
def pymod (x y : ℚ) : ℚ :=
  x - y * ⌊x / y⌋

/-- Round a rational to the nearest integer, ties to even — the rounding
mode of Python's builtin `round`. -/
def roundHalfEven (x : ℚ) : ℤ :=
  if x - ⌊x⌋ < 1 / 2 then ⌊x⌋
  else if 1 / 2 < x - ⌊x⌋ then ⌊x⌋ + 1
  else if ⌊x⌋ % 2 = 0 then ⌊x⌋ else ⌊x⌋ + 1

/-- Python `round(x, d)`: round to `d` decimal places, ties to even. -/
def pyround (x : ℚ) (d : ℕ) : ℚ :=
  (roundHalfEven (x * 10 ^ d) : ℚ) / 10 ^ d

/-- Python `str.lower()`, character by character (all the strings the app
lowers are ASCII crop names). -/
def pyLower (s : String) : String :=
  ⟨s.data.map Char.toLower⟩

/-- Python `str.capitalize()`: first character upper-cased, the rest
lower-cased. -/
def pyCapitalize (s : String) : String :=
  match s.data with
  | [] => ""
  | c :: cs => ⟨c.toUpper :: cs.map Char.toLower⟩

/-- A JSON scalar as it reaches the handlers: `null`, a number, or a
string (the values the two handlers actually inspect). -/
inductive PyVal where
  | null
  | num (q : ℚ)
  | str (s : String)
deriving DecidableEq, Repr

/-- Python truthiness of an optional JSON scalar, as used by
`if not lat or not lon` and `data.get(...)`: absent, `null`, `0` and `""`
are falsy, everything else truthy. -/
def truthy : Option PyVal → Bool
  | none => false
  | some .null => false
  | some (.num q) => decide (q ≠ 0)
  | some (.str s) => decide (s ≠ "")

/-- Digits-to-number accumulator for `parsePyFloat`. -/
def decDigitsAux : List Char → ℕ → Option ℕ
  | [], acc => some acc
  | c :: cs, acc =>
    if c.isDigit then decDigitsAux cs (acc * 10 + (c.toNat - 48)) else none

/-- Read a non-empty all-digit list as a natural number. -/
def decDigits (l : List Char) : Option ℕ :=
  if l.isEmpty then none else decDigitsAux l 0

/-- Split a character list at the first `'.'`, if any. -/
def splitDot : List Char → List Char × Option (List Char)
  | [] => ([], none)
  | c :: cs =>
    if c = '.' then ([], some cs)
    else
      let r := splitDot cs
      (c :: r.1, r.2)

/-- Python `float(s)` on a string, restricted to plain decimal literals
with an optional sign and an optional decimal point (the app never feeds
it exponents, `inf`, `nan`, underscores or surrounding whitespace);
anything else — e.g. `"abc"` — raises `ValueError`, modelled as `none`. -/
def parsePyFloat (s : String) : Option ℚ :=
  let parts :=
    match s.data with
    | '-' :: rest => ((-1 : ℚ), rest)
    | '+' :: rest => ((1 : ℚ), rest)
    | l => ((1 : ℚ), l)
  match splitDot parts.2 with
  | (ip, none) => (decDigits ip).map fun n => parts.1 * n
  | (ip, some fp) =>
    if ip.isEmpty && fp.isEmpty then none
    else
      match (if ip.isEmpty then some 0 else decDigits ip),
            (if fp.isEmpty then some 0 else decDigits fp) with
      | some i, some f => some (parts.1 * ((i : ℚ) + (f : ℚ) / 10 ^ fp.length))
      | _, _ => none

/-- Python `float(x)` on a JSON scalar: numbers pass through, strings are
parsed, `null` raises `TypeError` (modelled as `none`). -/
def pyFloat : PyVal → Option ℚ
  | .null => none
  | .num q => some q
  | .str s => parsePyFloat s

/-! ### The `/predict` handler (src/app.py, lines 32-97) -/

/-- Outcome of lines 73-82 of `predict` for the optional `planting_date`
field: the field is absent (or a falsy string), present but rejected by
`datetime.strptime(_, "%d-%m-%Y")`, or parsed, in which case `days` is
`(datetime.now() - planting_date).days`.  The wall clock enters only
through `days`, as the spec notes ("modulo wall-clock-dependent
planting-date aging"). -/
inductive PlantingInfo where
  | absent
  | malformed
  | parsed (days : ℤ)
deriving DecidableEq, Repr

/-- Step 1: `base_yield.get(crop, 3.5)` for the dict
`{"wheat": 4, "rice": 5, "maize": 4.5}`. -/
def baseYield (crop : String) : ℚ :=
  if crop = "wheat" then 4
  else if crop = "rice" then 5
  else if crop = "maize" then 4.5
  else 3.5

/-- Step 2 table: `ideal_temp.get(crop, (20, 30))`. -/
def idealTemp (crop : String) : ℚ × ℚ :=
  if crop = "wheat" then (18, 25)
  else if crop = "rice" then (22, 30)
  else if crop = "maize" then (20, 28)
  else (20, 30)

/-- Step 3 table: `optimal_rainfall.get(crop, (50, 100))`. -/
def optimalRainfall (crop : String) : ℚ × ℚ :=
  if crop = "wheat" then (40, 60)
  else if crop = "rice" then (80, 120)
  else if crop = "maize" then (50, 90)
  else (50, 100)

/-- Step 2: the temperature adjustment applied to the running estimate. -/
def tempAdjust (crop : String) (temp ye : ℚ) : ℚ :=
  let r := idealTemp crop
  if temp < r.1 then ye - (r.1 - temp) * 0.2
  else if r.2 < temp then ye - (temp - r.2) * 0.2
  else ye

/-- Step 3: the rainfall adjustment applied to the running estimate. -/
def rainAdjust (crop : String) (rainfall ye : ℚ) : ℚ :=
  let r := optimalRainfall crop
  if rainfall < r.1 then ye - (r.1 - rainfall) * 0.1
  else if r.2 < rainfall then ye - (rainfall - r.2) * 0.1
  else ye

/-- Step 4: planting-date aging.  A missing or unparsable date leaves the
estimate untouched (the `except: pass` branch); a parsed date multiplies
by 0.8 when under 60 days old and by 0.9 when over 180. -/
def dateAdjust (ye : ℚ) : PlantingInfo → ℚ
  | .absent => ye
  | .malformed => ye
  | .parsed d => if d < 60 then ye * 0.8 else if 180 < d then ye * 0.9 else ye

/-- The running `yield_estimate` after steps 1-4, for an already
lower-cased crop name. -/
def yieldEstimate (crop : String) (temp rainfall : ℚ) (p : PlantingInfo) : ℚ :=
  dateAdjust (rainAdjust crop rainfall (tempAdjust crop temp (baseYield crop))) p

/-- Step 5: `confidence = min(max(int(80 + (yield_estimate % 5)), 50), 95)`. -/
def confidence (ye : ℚ) : ℤ :=
  min (max (pytrunc (80 + pymod ye 5)) 50) 95

/-- The JSON object built in step 6 of `predict`. -/
structure YieldResult where
  predicted_yield : ℚ
  conf : ℤ
  tips : List String
deriving DecidableEq, Repr

/-- The `predict` handler on already-converted numeric fields: lower-case
the crop, run steps 1-5, round the yield to 2 decimals and attach the two
fixed advisory strings. -/
def predict (crop_type : String) (temp rainfall : ℚ) (p : PlantingInfo) : YieldResult :=
  let crop := pyLower crop_type
  let ye := yieldEstimate crop temp rainfall p
  { predicted_yield := pyround ye 2
    conf := confidence ye
    tips := ["Ideal soil for " ++ pyCapitalize crop ++ " detected 🌱",
             "Weather conditions suggest moderate growth potential"] }

/-- The `/predict` route including the two unguarded `float(...)`
conversions on lines 36-37: `temperature` defaults to `25` and `rainfall`
to `50` when absent, and a value `float` rejects propagates as an uncaught
exception (`none`). -/
def predictHandler (crop_type : String) (temperature rainfall : Option PyVal)
    (p : PlantingInfo) : Option YieldResult := do
  let temp ← pyFloat (temperature.getD (.num 25))
  let rain ← pyFloat (rainfall.getD (.num 50))
  some (predict crop_type temp rain p)

/-! ### The `/insights` handler (src/app.py, lines 101-154) -/

/-- The `"main"` object of the OpenWeather payload (the handler reads
`temp` and `humidity` unguarded). -/
structure WeatherMain where
  temp : ℚ
  humidity : ℚ
deriving DecidableEq, Repr

/-- The parts of the OpenWeather JSON payload the handler consumes:
`main` plus the optional hourly rain volume `rain["1h"]`
(`weather_data.get("rain", {}).get("1h", 0)` yields `none` here when
either key is missing). -/
structure WeatherData where
  main : WeatherMain
  rain1h : Option ℚ
deriving DecidableEq, Repr

/-- The `"weather"` object of the insight response. -/
structure WeatherOut where
  temp : ℚ
  rainfall : ℚ
  humidity : ℚ
deriving DecidableEq, Repr

/-- The `"soil"` object of the insight response. -/
structure SoilOut where
  ph : ℚ
  carbon : ℚ
  nitrogen : ℤ
deriving DecidableEq, Repr

/-- The `"irrigation"` object of the insight response. -/
structure IrrigationOut where
  status : String
  efficiency : ℤ
  index : ℚ
deriving DecidableEq, Repr

/-- The insight JSON assembled on lines 136-152. -/
structure InsightResult where
  weather : WeatherOut
  soil : SoilOut
  irrigation : IrrigationOut
deriving DecidableEq, Repr

/-- An HTTP response of the `/insights` route: a 200 with the insight
body, or an error status with an `{"error": message}` body. -/
inductive InsightResponse where
  | ok (r : InsightResult)
  | clientError (code : ℕ) (message : String)
deriving DecidableEq, Repr

/-- Lines 114-152: soil and irrigation heuristics derived from the
weather payload. -/
def insightsCompute (w : WeatherData) : InsightResult :=
  let rainfall := w.rain1h.getD 0
  let humidity := w.main.humidity
  let ph := pyround (6 + rainfall / 50) 1
  let carbon := pyround (1 + humidity / 100) 1
  let nitrogen := 40 + pytrunc (rainfall / 2)
  let irr : IrrigationOut :=
    if 30 < rainfall then ⟨"Good", 90, 0.85⟩
    else if 10 < rainfall ∧ rainfall ≤ 30 then ⟨"Moderate", 75, 0.7⟩
    else ⟨"Low", 60, 0.55⟩
  { weather := ⟨pyround w.main.temp 1, rainfall, humidity⟩
    soil := ⟨ph, carbon, nitrogen⟩
    irrigation := irr }

/-- The `/insights` route: validate the coordinates' truthiness, then
derive the insight body from whatever payload the weather call returns.
The outbound call happens only after validation, so the error branch
never consumes `w`. -/
def insights (lat lon : Option PyVal) (w : WeatherData) : InsightResponse :=
  if !truthy lat || !truthy lon then
    .clientError 400 "Latitude and longitude required"
  else
    .ok (insightsCompute w)

/-! ### Spec-side definitions

Definitions transcribed from the specification's own wording, to be
compared with the embedded code above. -/

/-- The spec's `mod` with "non-negative-remainder semantics":
`x - m * floor (x / m)`, which for `m > 0` is proved below to be the
remainder in `[0, m)`. -/
def specMod (x m : ℚ) : ℚ :=
  x - m * ⌊x / m⌋

/-- The spec's `clamp(v, lo, hi)` on integers. -/
def clamp (v lo hi : ℤ) : ℤ :=
  min (max v lo) hi

/-- The spec's confidence formula:
`clamp(floor(80 + (yield_estimate mod 5)), 50, 95)`. -/
def specConfidence (ye : ℚ) : ℤ :=
  clamp ⌊(80 : ℚ) + specMod ye 5⌋ 50 95

/-- The spec's per-crop ideal temperature table
(wheat 18-25, rice 22-30, maize 20-28, otherwise 20-30). -/
def specTempRange (crop : String) : ℚ × ℚ :=
  if crop = "wheat" then (18, 25)
  else if crop = "rice" then (22, 30)
  else if crop = "maize" then (20, 28)
  else (20, 30)

/-- The spec's per-crop optimal rainfall table
(wheat 40-60, rice 80-120, maize 50-90, otherwise 50-100). -/
def specRainRange (crop : String) : ℚ × ℚ :=
  if crop = "wheat" then (40, 60)
  else if crop = "rice" then (80, 120)
  else if crop = "maize" then (50, 90)
  else (50, 100)

/-- The spec's temperature penalty: `(min - temp) * 0.2` below the range,
`(temp - max) * 0.2` above it, `0` inside. -/
def specTempPenalty (crop : String) (temp : ℚ) : ℚ :=
  let r := specTempRange crop
  if temp < r.1 then (r.1 - temp) * 0.2
  else if r.2 < temp then (temp - r.2) * 0.2
  else 0

/-- The spec's rainfall penalty: `(min - rainfall) * 0.1` below the range,
`(rainfall - max) * 0.1` above it, `0` inside. -/
def specRainPenalty (crop : String) (rainfall : ℚ) : ℚ :=
  let r := specRainRange crop
  if rainfall < r.1 then (r.1 - rainfall) * 0.1
  else if r.2 < rainfall then (rainfall - r.2) * 0.1
  else 0

/-- The spec's planting-date aging factor as a function of the days
elapsed: 0.8 under 60 days, 0.9 over 180 days, 1 in between. -/
def specAgingFactor (d : ℤ) : ℚ :=
  if d < 60 then 0.8 else if 180 < d then 0.9 else 1

/-! ### Helper lemmas -/

theorem pymod_eq_mul_fract (x : ℚ) {y : ℚ} (hy : y ≠ 0) :
    pymod x y = y * Int.fract (x / y) := by
  have hxy : y * (x / y) = x := by field_simp
  rw [pymod, Int.fract, mul_sub, hxy]

theorem pymod_nonneg (x : ℚ) {y : ℚ} (hy : 0 < y) : 0 ≤ pymod x y := by
  rw [pymod_eq_mul_fract x hy.ne.symm]
  exact mul_nonneg hy.le (Int.fract_nonneg _)

theorem pymod_lt (x : ℚ) {y : ℚ} (hy : 0 < y) : pymod x y < y := by
  rw [pymod_eq_mul_fract x hy.ne.symm]
  calc y * Int.fract (x / y) < y * 1 := (mul_lt_mul_left hy).mpr (Int.fract_lt_one _)
    _ = y := mul_one y

theorem confidence_unclamped (ye : ℚ) :
    confidence ye = ⌊(80 : ℚ) + pymod ye 5⌋ ∧
      80 ≤ ⌊(80 : ℚ) + pymod ye 5⌋ ∧ ⌊(80 : ℚ) + pymod ye 5⌋ ≤ 84 := by
  have h0 : 0 ≤ pymod ye 5 := pymod_nonneg ye (by norm_num)
  have h5 : pymod ye 5 < 5 := pymod_lt ye (by norm_num)
  have hlb : (80 : ℤ) ≤ ⌊(80 : ℚ) + pymod ye 5⌋ := by
    apply Int.le_floor.mpr; push_cast; linarith
  have hub : ⌊(80 : ℚ) + pymod ye 5⌋ ≤ 84 := by
    have h : ⌊(80 : ℚ) + pymod ye 5⌋ < 85 := Int.floor_lt.mpr (by push_cast; linarith)
    omega
  refine ⟨?_, hlb, hub⟩
  rw [confidence, pytrunc, if_pos (by linarith : (0 : ℚ) ≤ 80 + pymod ye 5),
    max_eq_left (by omega), min_eq_left (by omega)]

theorem predict_conf_def (ct : String) (temp rain : ℚ) (p : PlantingInfo) :
    (predict ct temp rain p).conf = confidence (yieldEstimate (pyLower ct) temp rain p) := rfl

theorem tempAdjust_eq_sub_penalty (crop : String) (temp ye : ℚ) :
    tempAdjust crop temp ye = ye - specTempPenalty crop temp := by
  have h : idealTemp crop = specTempRange crop := rfl
  simp only [tempAdjust, specTempPenalty, ← h]
  split_ifs <;> ring

theorem rainAdjust_eq_sub_penalty (crop : String) (rainfall ye : ℚ) :
    rainAdjust crop rainfall ye = ye - specRainPenalty crop rainfall := by
  have h : optimalRainfall crop = specRainRange crop := rfl
  simp only [rainAdjust, specRainPenalty, ← h]
  split_ifs <;> ring

theorem baseYield_wheat : baseYield "wheat" = 4 := by
  unfold baseYield; rw [if_pos rfl]

theorem baseYield_rice : baseYield "rice" = 5 := by
  unfold baseYield; rw [if_neg (by decide), if_pos rfl]

theorem baseYield_maize : baseYield "maize" = 4.5 := by
  unfold baseYield; rw [if_neg (by decide), if_neg (by decide), if_pos rfl]

theorem baseYield_cases (crop : String) :
    baseYield crop = 4 ∨ baseYield crop = 5 ∨ baseYield crop = 4.5 ∨ baseYield crop = 3.5 := by
  unfold baseYield; split_ifs <;> simp

/-! ### Claims -/

/-- C1: for every yield request the `/predict` confidence equals
`clamp(floor(80 + (yield_estimate mod 5)), 50, 95)` where `mod` is the
non-negative remainder (shown to lie in `[0, 5)` and to differ from the
estimate by an integer multiple of 5), and the confidence is an integer
in `[50, 95]`. -/
theorem predict_confidence_eq_spec (ct : String) (temp rain : ℚ) (p : PlantingInfo) :
    (predict ct temp rain p).conf
        = specConfidence (yieldEstimate (pyLower ct) temp rain p) ∧
      0 ≤ specMod (yieldEstimate (pyLower ct) temp rain p) 5 ∧
      specMod (yieldEstimate (pyLower ct) temp rain p) 5 < 5 ∧
      (∃ k : ℤ, yieldEstimate (pyLower ct) temp rain p
          - specMod (yieldEstimate (pyLower ct) temp rain p) 5 = 5 * k) ∧
      50 ≤ (predict ct temp rain p).conf ∧ (predict ct temp rain p).conf ≤ 95 := by
  set ye := yieldEstimate (pyLower ct) temp rain p with hye
  have hmod : specMod ye 5 = pymod ye 5 := rfl
  obtain ⟨hc, hlb, hub⟩ := confidence_unclamped ye
  have hconf : (predict ct temp rain p).conf = confidence ye := rfl
  refine ⟨?_, ?_, ?_, ⟨⌊ye / 5⌋, by rw [hmod, pymod]; ring⟩, ?_, ?_⟩
  · rw [hconf, specConfidence, clamp, hmod, hc, max_eq_left (by omega), min_eq_left (by omega)]
  · rw [hmod]; exact pymod_nonneg ye (by norm_num)
  · rw [hmod]; exact pymod_lt ye (by norm_num)
  · rw [hconf, hc]; omega
  · rw [hconf, hc]; omega

/-- C9: the computed confidence in fact always lies in `[80, 84]` and the
clamp to `[50, 95]` never alters it: the confidence equals the unclamped
`floor(80 + (yield_estimate mod 5))`. -/
theorem predict_confidence_tight_bounds (ct : String) (temp rain : ℚ) (p : PlantingInfo) :
    80 ≤ (predict ct temp rain p).conf ∧ (predict ct temp rain p).conf ≤ 84 ∧
      (predict ct temp rain p).conf
        = ⌊(80 : ℚ) + pymod (yieldEstimate (pyLower ct) temp rain p) 5⌋ := by
  obtain ⟨hc, hlb, hub⟩ := confidence_unclamped (yieldEstimate (pyLower ct) temp rain p)
  have hconf : (predict ct temp rain p).conf
      = confidence (yieldEstimate (pyLower ct) temp rain p) := rfl
  exact ⟨by rw [hconf, hc]; omega, by rw [hconf, hc]; omega, by rw [hconf, hc]⟩

/-- C3: the temperature and rainfall steps subtract exactly the spec's
piecewise-linear penalties from the running estimate, and the worked
example — wheat at temperature 30 and rainfall 30, no planting date —
yields `predicted_yield = 2.0` with confidence 82. -/
theorem adjust_steps_eq_spec_penalties (ct : String) (temp rain : ℚ) :
    rainAdjust (pyLower ct) rain (tempAdjust (pyLower ct) temp (baseYield (pyLower ct)))
        = baseYield (pyLower ct) - specTempPenalty (pyLower ct) temp
          - specRainPenalty (pyLower ct) rain ∧
      (predict "wheat" 30 30 .absent).predicted_yield = 2 ∧
      (predict "wheat" 30 30 .absent).conf = 82 := by
  have hlow : pyLower "wheat" = "wheat" := by decide
  have hye : yieldEstimate "wheat" 30 30 .absent = 2 := by
    norm_num [yieldEstimate, dateAdjust, rainAdjust, tempAdjust, baseYield,
      idealTemp, optimalRainfall]
  refine ⟨by rw [tempAdjust_eq_sub_penalty, rainAdjust_eq_sub_penalty], ?_, ?_⟩
  · have h : (predict "wheat" 30 30 .absent).predicted_yield
        = pyround (yieldEstimate (pyLower "wheat") 30 30 .absent) 2 := rfl
    rw [h, hlow, hye]
    norm_num [pyround, roundHalfEven]
  · have h : (predict "wheat" 30 30 .absent).conf
        = confidence (yieldEstimate (pyLower "wheat") 30 30 .absent) := rfl
    rw [h, hlow, hye]
    norm_num [confidence, pytrunc, pymod]

/-- C4: a parsed planting date multiplies the temperature/rainfall-adjusted
estimate by exactly 0.8 when fewer than 60 days have elapsed, by exactly
0.9 when more than 180 have, and leaves it unchanged when the elapsed days
lie in `[60, 180]`. -/
theorem planting_date_aging (ct : String) (temp rain : ℚ) (d : ℤ) :
    yieldEstimate (pyLower ct) temp rain (.parsed d)
        = yieldEstimate (pyLower ct) temp rain .absent * specAgingFactor d ∧
      (d < 60 → specAgingFactor d = 0.8) ∧
      (180 < d → specAgingFactor d = 0.9) ∧
      (60 ≤ d ∧ d ≤ 180 → specAgingFactor d = 1) ∧
      (specAgingFactor d = 1 ↔ 60 ≤ d ∧ d ≤ 180) := by
  refine ⟨?_, ?_, ?_, ?_, ?_⟩
  · simp only [yieldEstimate, dateAdjust, specAgingFactor]
    split_ifs <;> ring
  · intro h; rw [specAgingFactor, if_pos h]
  · intro h
    rw [specAgingFactor, if_neg (by omega), if_pos h]
  · rintro ⟨h1, h2⟩
    rw [specAgingFactor, if_neg (by omega), if_neg (by omega)]
  · constructor
    · intro h
      by_contra hc
      rw [specAgingFactor] at h
      rcases lt_or_le d 60 with h1 | h1
      · rw [if_pos h1] at h; norm_num at h
      · rcases lt_or_le 180 d with h2 | h2
        · rw [if_neg (by omega), if_pos h2] at h; norm_num at h
        · exact hc ⟨h1, h2⟩
    · rintro ⟨h1, h2⟩
      rw [specAgingFactor, if_neg (by omega), if_neg (by omega)]

/-- C6: a planting-date string that `strptime` rejects is silently
ignored — the handler produces exactly the same result as the identical
request with no planting date. -/
theorem malformed_date_ignored (ct : String) (temp rain : ℚ) :
    predict ct temp rain .malformed = predict ct temp rain .absent := rfl

/-- C7: with temperature and rainfall inside the crop's ideal ranges and
no planting date, the predicted yield is exactly the crop's base yield
(wheat 4, rice 5, maize 4.5); the lookup is case-insensitive (only the
lower-cased crop name matters) and any other crop gets base 3.5. -/
theorem predict_base_in_range (ct : String) (temp rain : ℚ)
    (h1 : (idealTemp (pyLower ct)).1 ≤ temp) (h2 : temp ≤ (idealTemp (pyLower ct)).2)
    (h3 : (optimalRainfall (pyLower ct)).1 ≤ rain)
    (h4 : rain ≤ (optimalRainfall (pyLower ct)).2) :
    (predict ct temp rain .absent).predicted_yield = baseYield (pyLower ct) ∧
      baseYield "wheat" = 4 ∧ baseYield "rice" = 5 ∧ baseYield "maize" = 4.5 ∧
      (∀ s : String, s = "wheat" ∨ s = "rice" ∨ s = "maize" ∨ baseYield s = 3.5) ∧
      (∀ s₁ s₂ : String, pyLower s₁ = pyLower s₂ →
        predict s₁ temp rain .absent = predict s₂ temp rain .absent) := by
  refine ⟨?_, baseYield_wheat, baseYield_rice, baseYield_maize, ?_, ?_⟩
  · have ht : tempAdjust (pyLower ct) temp (baseYield (pyLower ct)) = baseYield (pyLower ct) := by
      rw [tempAdjust, if_neg (by exact not_lt.mpr h1), if_neg (by exact not_lt.mpr h2)]
    have hr : rainAdjust (pyLower ct) rain (baseYield (pyLower ct)) = baseYield (pyLower ct) := by
      rw [rainAdjust, if_neg (by exact not_lt.mpr h3), if_neg (by exact not_lt.mpr h4)]
    have hpy : (predict ct temp rain .absent).predicted_yield
        = pyround (yieldEstimate (pyLower ct) temp rain .absent) 2 := rfl
    have hch : yieldEstimate (pyLower ct) temp rain .absent = baseYield (pyLower ct) := by
      rw [yieldEstimate, ht, hr, dateAdjust]
    rw [hpy, hch]
    rcases baseYield_cases (pyLower ct) with h | h | h | h <;>
      rw [h] <;> norm_num [pyround, roundHalfEven]
  · intro s
    unfold baseYield
    split_ifs with a b c
    · exact Or.inl a
    · exact Or.inr (Or.inl b)
    · exact Or.inr (Or.inr (Or.inl c))
    · exact Or.inr (Or.inr (Or.inr rfl))
  · intro s₁ s₂ h
    unfold predict
    rw [h]

/-- Witness for C7: the mixed-case crop `"WhEaT"` at temperature 20 and
rainfall 50 — both inside wheat's ideal ranges — yields exactly wheat's
base yield. -/
theorem predict_base_in_range_witness :
    (predict "WhEaT" 20 50 .absent).predicted_yield = baseYield (pyLower "WhEaT") :=
  (predict_base_in_range "WhEaT" 20 50 (by decide) (by decide) (by decide) (by decide)).1

theorem roundHalfEven_le_of_le_int {x : ℚ} {n : ℤ} (h : x ≤ n) : roundHalfEven x ≤ n := by
  have hfl : ⌊x⌋ ≤ n := by
    have := Int.floor_le_floor h
    rwa [Int.floor_intCast] at this
  have hcarry : (1 : ℚ) / 2 ≤ x - ⌊x⌋ → ⌊x⌋ + 1 ≤ n := by
    intro hx
    have hq : (⌊x⌋ : ℚ) < (n : ℚ) := by linarith
    exact_mod_cast Int.add_one_le_of_lt (by exact_mod_cast hq)
  unfold roundHalfEven
  split_ifs with a b c
  · exact hfl
  · exact hcarry (by linarith)
  · exact hfl
  · exact hcarry (by linarith)

theorem pyround2_le_of_le {x b : ℚ} {n : ℤ} (hn : (n : ℚ) = b * 100) (h : x ≤ b) :
    pyround x 2 ≤ b := by
  have hx : x * 10 ^ 2 ≤ (n : ℚ) := by rw [hn]; norm_num; linarith
  have h2 : ((roundHalfEven (x * 10 ^ 2) : ℤ) : ℚ) ≤ (n : ℚ) := by
    exact_mod_cast roundHalfEven_le_of_le_int hx
  rw [pyround]
  have hb : b = (n : ℚ) / 10 ^ 2 := by rw [hn]; norm_num
  rw [hb]
  exact (div_le_div_iff_of_pos_right (by norm_num)).mpr h2

/-- C10: the predicted yield never exceeds the crop's base yield, which is
always positive: the temperature and rainfall steps only subtract, and the
aging step multiplies by 0.8, 0.9 or 1. -/
theorem predicted_yield_le_base (ct : String) (temp rain : ℚ) (p : PlantingInfo) :
    (predict ct temp rain p).predicted_yield ≤ baseYield (pyLower ct) ∧
      0 < baseYield (pyLower ct) := by
  set c := pyLower ct with hc
  have hbpos : 0 < baseYield c := by
    rcases baseYield_cases c with h | h | h | h <;> rw [h] <;> norm_num
  have ht : tempAdjust c temp (baseYield c) ≤ baseYield c := by
    rw [tempAdjust]
    split_ifs with a b <;> nlinarith
  have hr : rainAdjust c rain (tempAdjust c temp (baseYield c))
      ≤ tempAdjust c temp (baseYield c) := by
    rw [rainAdjust]
    split_ifs with a b <;> nlinarith
  have hd : yieldEstimate c temp rain p ≤ baseYield c := by
    rw [yieldEstimate]
    set ye := rainAdjust c rain (tempAdjust c temp (baseYield c)) with hye
    have hyeb : ye ≤ baseYield c := le_trans hr ht
    cases p with
    | absent => exact hyeb
    | malformed => exact hyeb
    | parsed d =>
      rw [dateAdjust]
      split_ifs with h1 h2
      · rcases le_or_lt 0 ye with hy | hy <;> nlinarith
      · rcases le_or_lt 0 ye with hy | hy <;> nlinarith
      · exact hyeb
  have hpy : (predict ct temp rain p).predicted_yield
      = pyround (yieldEstimate c temp rain p) 2 := rfl
  rw [hpy]
  refine ⟨?_, hbpos⟩
  rcases baseYield_cases c with h | h | h | h <;> rw [h] at hd ⊢
  · exact pyround2_le_of_le (n := 400) (by norm_num) hd
  · exact pyround2_le_of_le (n := 500) (by norm_num) hd
  · exact pyround2_le_of_le (n := 450) (by norm_num) hd
  · exact pyround2_le_of_le (n := 350) (by norm_num) hd

/-- C5: when latitude or longitude is absent or falsy, `/insights` answers
400 with exactly `{"error": "Latitude and longitude required"}`, and the
response does not depend on the weather payload — no outbound call is
observable. -/
theorem insights_missing_coords (lat lon : Option PyVal) (w w' : WeatherData)
    (h : truthy lat = false ∨ truthy lon = false) :
    insights lat lon w = .clientError 400 "Latitude and longitude required" ∧
      insights lat lon w = insights lat lon w' := by
  have hcond : (!truthy lat || !truthy lon) = true := by
    rcases h with h | h <;> rw [h] <;> simp
  have he : ∀ v : WeatherData,
      insights lat lon v = .clientError 400 "Latitude and longitude required" := by
    intro v; rw [insights, if_pos hcond]
  exact ⟨he w, (he w).trans (he w').symm⟩

/-- Witness for C5: latitude `0` (falsy) with a numeric longitude is
rejected with the exact error body. -/
theorem insights_missing_coords_witness :
    insights (some (.num 0)) (some (.num 7)) ⟨⟨20, 60⟩, none⟩
      = .clientError 400 "Latitude and longitude required" :=
  (insights_missing_coords (some (.num 0)) (some (.num 7)) ⟨⟨20, 60⟩, none⟩ ⟨⟨20, 60⟩, none⟩
    (Or.inl (by decide))).1

/-- The insight result transcribed from the spec's wording, with one
amendment: the nitrogen term uses Python's `int` truncation toward zero
(`40 + int(rainfall / 2)`) rather than a mathematical floor — the two
agree for all non-negative rainfall.  The spec's three irrigation tiers
are transcribed verbatim, with an unreachable fourth arm whose emptiness
is proved in `insights_derivation_spec`. -/
def specInsight (w : WeatherData) : InsightResult :=
  let rainfall := w.rain1h.getD 0
  let humidity := w.main.humidity
  { weather := ⟨pyround w.main.temp 1, rainfall, humidity⟩
    soil := ⟨pyround (6 + rainfall / 50) 1, pyround (1 + humidity / 100) 1,
             40 + pytrunc (rainfall / 2)⟩
    irrigation :=
      if 30 < rainfall then ⟨"Good", 90, 0.85⟩
      else if 10 < rainfall ∧ rainfall ≤ 30 then ⟨"Moderate", 75, 0.7⟩
      else if rainfall ≤ 10 then ⟨"Low", 60, 0.55⟩
      else ⟨"", 0, 0⟩ }

/-- Counterexample to C2 as frozen: for a payload with `rain["1h"] = -3`
the handler's nitrogen is `40 + int(-1.5) = 39`, not
`40 + floor(-1.5) = 38` — Python's `int` truncates toward zero, it does
not floor. -/
theorem insights_nitrogen_not_floor :
    (insightsCompute ⟨⟨20, 60⟩, some (-3)⟩).soil.nitrogen = 39 ∧
      (40 : ℤ) + ⌊(-3 : ℚ) / 2⌋ = 38 := by
  constructor
  · have hneg : ((-3 : ℚ)) / 2 = -(3 / 2) := by norm_num
    norm_num [insightsCompute, pytrunc, hneg, Int.ceil_neg]
  · norm_num

/-- C2 (amended): the `/insights` result is exactly the spec's derivation
with nitrogen truncated toward zero — `ph = round(6 + rainfall/50, 1)`,
`carbon = round(1 + humidity/100, 1)`, `nitrogen = 40 + int(rainfall/2)`,
the three rainfall-threshold irrigation tiers, and `temp` rounded to one
decimal — and on the stubbed payload
`{"main":{"temp":20,"humidity":60},"rain":{"1h":40}}` it returns
rainfall 40, humidity 60, ph 6.8, carbon 1.6, nitrogen 60, status "Good",
efficiency 90, index 0.85, temp 20.0. -/
theorem insights_derivation_spec (w : WeatherData) :
    insightsCompute w = specInsight w ∧
      insightsCompute ⟨⟨20, 60⟩, some 40⟩
        = ⟨⟨20, 40, 60⟩, ⟨6.8, 1.6, 60⟩, ⟨"Good", 90, 0.85⟩⟩ := by
  constructor
  · unfold insightsCompute specInsight
    dsimp only
    rw [InsightResult.mk.injEq]
    refine ⟨rfl, rfl, ?_⟩
    split_ifs with a b c
    · rfl
    · rfl
    · rfl
    · exact absurd ⟨lt_of_not_le c, le_of_not_lt a⟩ b
  · norm_num [insightsCompute, pyround, roundHalfEven, pytrunc]

/-- Counterexample to C8 as frozen: a yield request with both numeric
fields missing does not fail — the handler returns a result (temperature
defaults to 25 and rainfall to 50). -/
theorem predictHandler_missing_defaults :
    predictHandler "wheat" none none .absent = some (predict "wheat" 25 50 .absent) ∧
      (predictHandler "wheat" none none .absent).isSome = true :=
  ⟨rfl, rfl⟩

/-- C8 (amended): `/predict` surfaces no handled error conditions — it
returns a result exactly when the two unguarded `float` conversions
succeed; a missing field defaults (temperature 25, rainfall 50), while a
non-numeric value (`null` or an unparsable string) propagates as an
uncaught type-conversion error. -/
theorem predictHandler_conversions (ct : String) (tv rv : Option PyVal) (p : PlantingInfo) :
    predictHandler ct none none p = some (predict ct 25 50 p) ∧
      predictHandler ct (some .null) rv p = none ∧
      predictHandler ct (some (.str "abc")) rv p = none ∧
      predictHandler ct tv (some .null) p = none ∧
      (predictHandler ct tv rv p).isSome
        = ((pyFloat (tv.getD (.num 25))).isSome && (pyFloat (rv.getD (.num 50))).isSome) := by
  refine ⟨rfl, rfl, rfl, ?_, ?_⟩
  · cases h : pyFloat (tv.getD (.num 25)) with
    | none => simp [predictHandler, h]
    | some q => simp [predictHandler, h, pyFloat]
  · cases h1 : pyFloat (tv.getD (.num 25)) with
    | none => simp [predictHandler, h1]
    | some q =>
      cases h2 : pyFloat (rv.getD (.num 50)) with
      | none => simp [predictHandler, h1, h2]
      | some q2 => simp [predictHandler, h1, h2]

end CropApp
